import Mathlib

/-!
Shallow embedding of the campus wellness backend (`src/server.js` over the
relational schema `src/schema.sql`).

The relational store is modelled as an explicit state (`DB`) holding the
tables the claims touch: `Habit_Log`, `Appointment`, `Notification`.
Tables are lists of rows; `AUTO_INCREMENT` ids are modelled by counters in
the state.  HTTP request bodies are records of `Option`-typed fields
(`none` means the JSON field is absent).  The JavaScript truthiness checks
that the handlers perform (`!std_id`, `!log_date`, ...) are modelled by
`truthyNum` / `truthyStr`: a field passes when it is supplied and is not
the falsy value of its type (`0` for numbers, the empty string for
strings).  Handlers are pure functions from a request and the store state
to the new store state and an HTTP response.
-/

namespace CampusWellness

/-- A row of the `Habit_Log` table (schema.sql): student, habit, date and
the `completed` flag (the server always inserts `1`). -/
structure HabitLogRow where
  std_id : Nat
  habit_id : Nat
  log_date : String
  completed : Nat
deriving DecidableEq, Repr

/-- A row of the `Appointment` table (schema.sql). -/
structure Appointment where
  appoint_id : Nat
  std_id : Nat
  appointment_type : String
  professional_name : String
  appointment_date : String
  appointment_time : String
  status : String
  reason : Option String
  session_note : Option String
deriving DecidableEq, Repr

/-- A row of the `Notification` table (schema.sql); the `created_at`
timestamp is not modelled (no claim mentions it). -/
structure Notification where
  n_id : Nat
  std_id : Nat
  msg : String
  is_read : Nat
  appointment_reminder : Nat
  mood_reminder : Nat
  habit_reminder : Nat
deriving DecidableEq, Repr

/-- The store state: the three tables the claims touch, plus the
`AUTO_INCREMENT` counters for `appoint_id` and `n_id`. -/
structure DB where
  habit_Log : List HabitLogRow
  appointments : List Appointment
  notifications : List Notification
  nextAppointId : Nat
  nextNId : Nat
deriving DecidableEq, Repr

/-- The empty store. -/
def db0 : DB := ⟨[], [], [], 1, 1⟩

/-- An HTTP response: status code plus the `message` field of the JSON
body (`res.json({message})` without an explicit status is code 200). -/
structure Resp where
  code : Nat
  message : String
deriving DecidableEq, Repr

/-- JavaScript truthiness of an optional numeric body field: `!x` fails
for a missing field (`undefined`) and for `0`. -/
def truthyNum : Option Nat → Bool
  | none => false
  | some n => n != 0

/-- JavaScript truthiness of an optional string body field: `!x` fails
for a missing field (`undefined`) and for the empty string. -/
def truthyStr : Option String → Bool
  | none => false
  | some s => s != ""

/-! ## Habit log reconciler (POST /habit-log, GET /habit-log/:std_id) -/

/-- Body of `POST /habit-log`.  `habit_ids` is `some l` when the JSON
field is an array (`Array.isArray`), `none` when absent or not an array. -/
structure HabitLogBody where
  std_id : Option Nat
  habit_ids : Option (List Nat)
  log_date : Option String
deriving Repr

/-- The rows of `Habit_Log` matching `WHERE std_id = ? AND log_date = ?`. -/
def habitRowsFor (db : DB) (std : Nat) (date : String) : List HabitLogRow :=
  db.habit_Log.filter (fun r => r.std_id == std && r.log_date == date)

/-- Handler of `POST /habit-log` (server.js lines 255-290), the operation
the spec calls `setCompletedForDate`.  Validation: `!std_id ||
!Array.isArray(habit_ids) || !log_date` → 400.  Otherwise it deletes
every `Habit_Log` row for `(std_id, log_date)` and inserts one row per
element of `habit_ids` with `completed = 1`, in array order. -/
def setCompletedForDate (db : DB) (b : HabitLogBody) : DB × Resp :=
  if !(truthyNum b.std_id && b.habit_ids.isSome && truthyStr b.log_date) then
    (db, ⟨400, "std_id, habit_ids[], and log_date are required"⟩)
  else
    let std := b.std_id.getD 0
    let date := b.log_date.getD ""
    let ids := b.habit_ids.getD []
    let kept := db.habit_Log.filter (fun r => !(r.std_id == std && r.log_date == date))
    let inserted := ids.map (fun h =>
      ({ std_id := std, habit_id := h, log_date := date, completed := 1 } : HabitLogRow))
    ({ db with habit_Log := kept ++ inserted }, ⟨200, "Habit log saved"⟩)

/-- Model of `req.query.log_date || today` (server.js line 214): the query value
is used unless it is absent or falsy (the empty string), in which case
the current date is substituted. -/
def resolveLogDate (q : Option String) (today : String) : String :=
  match q with
  | none => today
  | some s => if s == "" then today else s

/-- Handler of `GET /habit-log/:std_id` (server.js lines 206-230), the
operation the spec calls `getCompletedForDate`: `SELECT habit_id, completed FROM
Habit_Log WHERE std_id = ? AND log_date = ?`, with the date defaulting to
today. -/
def getCompletedForDate (db : DB) (std : Nat) (q : Option String) (today : String) :
    List (Nat × Nat) :=
  (habitRowsFor db std (resolveLogDate q today)).map (fun r => (r.habit_id, r.completed))

/-! ## Appointment lifecycle (POST /appointments, GET /appointments/:std_id,
PUT /appointments/status/...) -/

/-- Body of `POST /appointments`; `none` means the JSON field is absent. -/
structure AppointmentBody where
  std_id : Option Nat
  appointment_type : Option String
  professional_name : Option String
  appointment_date : Option String
  appointment_time : Option String
  reason : Option String
deriving Repr

/-- The required-field check of `POST /appointments` (server.js line 328):
`!std_id || !appointment_type || !professional_name || !appointment_date
|| !appointment_time`, negated.  A field counts as present exactly when
this JavaScript truthiness test passes. -/
def apptFieldsPresent (b : AppointmentBody) : Bool :=
  truthyNum b.std_id && truthyStr b.appointment_type && truthyStr b.professional_name
    && truthyStr b.appointment_date && truthyStr b.appointment_time

/-- Handler of `POST /appointments` (server.js lines 322-359), the operation
the spec calls `create`: after validation it inserts one `Appointment` row with
status fixed to `Pending`, then one `Notification` row for the same
student with the booking message, and answers 201. -/
def createAppointment (db : DB) (b : AppointmentBody) : DB × Resp :=
  if !(apptFieldsPresent b) then
    (db, ⟨400, "Missing required appointment fields"⟩)
  else
    let std := b.std_id.getD 0
    let appt : Appointment :=
      { appoint_id := db.nextAppointId
        std_id := std
        appointment_type := b.appointment_type.getD ""
        professional_name := b.professional_name.getD ""
        appointment_date := b.appointment_date.getD ""
        appointment_time := b.appointment_time.getD ""
        status := "Pending"
        reason := b.reason
        session_note := none }
    let notif : Notification :=
      { n_id := db.nextNId
        std_id := std
        msg := "Appointment booked with " ++ b.professional_name.getD "" ++ " on "
          ++ b.appointment_date.getD "" ++ " at " ++ b.appointment_time.getD ""
        is_read := 0
        appointment_reminder := 1
        mood_reminder := 0
        habit_reminder := 0 }
    ({ db with
        appointments := db.appointments ++ [appt]
        notifications := db.notifications ++ [notif]
        nextAppointId := db.nextAppointId + 1
        nextNId := db.nextNId + 1 },
      ⟨201, "Appointment created"⟩)

/-- The `ORDER BY appointment_date DESC, appointment_time DESC` key of
`GET /appointments/:std_id`: `apAfter a b` says that row `b` may follow
row `a` in the output (its date is strictly earlier, or the dates are
equal and its time is not later). -/
def apAfter (a b : Appointment) : Prop :=
  b.appointment_date < a.appointment_date ∨
    (b.appointment_date = a.appointment_date ∧ b.appointment_time ≤ a.appointment_time)

instance : DecidableRel apAfter := fun a b => by
  unfold apAfter
  exact inferInstance

instance : IsTotal Appointment apAfter := ⟨by
  intro a b
  rcases lt_trichotomy b.appointment_date a.appointment_date with h | h | h
  · exact Or.inl (Or.inl h)
  · rcases le_total b.appointment_time a.appointment_time with ht | ht
    · exact Or.inl (Or.inr ⟨h, ht⟩)
    · exact Or.inr (Or.inr ⟨h.symm, ht⟩)
  · exact Or.inr (Or.inl h)⟩

instance : IsTrans Appointment apAfter := ⟨by
  intro a b c hab hbc
  rcases hab with h1 | ⟨e1, t1⟩ <;> rcases hbc with h2 | ⟨e2, t2⟩
  · exact Or.inl (lt_trans h2 h1)
  · exact Or.inl (lt_of_le_of_lt (le_of_eq e2) h1)
  · exact Or.inl (lt_of_lt_of_le h2 (le_of_eq e1))
  · exact Or.inr ⟨e2.trans e1, le_trans t2 t1⟩⟩

/-- Handler of `GET /appointments/:std_id` (server.js lines 388-407), the
operation the spec calls `listForStudent`: `SELECT * FROM Appointment WHERE std_id
= ? ORDER BY appointment_date DESC, appointment_time DESC`.  The SQL
ordering contract is modelled by sorting the filtered rows with the
`apAfter` key. -/
def listForStudent (db : DB) (std : Nat) : List Appointment :=
  List.insertionSort apAfter (db.appointments.filter (fun a => a.std_id == std))

/-- The allowed target statuses of the status-update route
(server.js lines 479 and 496). -/
def allowedStatuses : List String := ["Approved", "Cancelled", "Completed"]

/-- Effect of `UPDATE Appointment SET status = ? WHERE appoint_id = ?`. -/
def applyStatusUpdate (db : DB) (id : Nat) (status : String) : DB :=
  { db with
      appointments := db.appointments.map (fun a =>
        if a.appoint_id == id then { a with status := status } else a) }

/-- First registered handler of `PUT /appointments/status/:id`
(server.js lines 475-489), the operation the spec calls `updateStatus`.
It has no try/catch: `storeFails` says whether the `UPDATE` statement
raises a store error, and in that case the rejected promise is unhandled
and the handler produces no response (`none`). -/
def updateStatusId (storeFails : Bool) (_storeMsg : String) (db : DB) (id : Nat)
    (status : String) : DB × Option Resp :=
  if status ∉ allowedStatuses then
    (db, some ⟨400, "Invalid status"⟩)
  else if storeFails then
    (db, none)
  else
    (applyStatusUpdate db id status, some ⟨200, "Status updated"⟩)

/-- Second registered handler of `PUT /appointments/status/:appoint_id`
(server.js lines 491-511).  Same validation and same `UPDATE`, but
wrapped in try/catch, so a store failure answers 500 with the raw store
message. -/
def updateStatusAppointId (storeFails : Bool) (storeMsg : String) (db : DB) (id : Nat)
    (status : String) : DB × Option Resp :=
  if status ∉ allowedStatuses then
    (db, some ⟨400, "Invalid status value"⟩)
  else if storeFails then
    (db, some ⟨500, storeMsg⟩)
  else
    (applyStatusUpdate db id status, some ⟨200, "Appointment status updated"⟩)

/-- The HTTP status code of an optional response. -/
def respCode (r : Option Resp) : Option Nat := r.map Resp.code

/-! ## Express routing

Express dispatches a request to the first registered route whose method
and path pattern match; later matching routes never run (no handler here
calls `next`).  A pattern segment is a literal or a `:param`. -/

/-- One segment of a route pattern. -/
inductive Seg where
  | lit (s : String)
  | pvar (s : String)
deriving DecidableEq, Repr

/-- Whether a pattern segment matches a path segment. -/
def segMatches : Seg → String → Bool
  | .lit s, t => s == t
  | .pvar _, _ => true

/-- Whether a route pattern matches a path, segmentwise. -/
def routeMatches : List Seg → List String → Bool
  | [], [] => true
  | s :: ps, t :: ts => segMatches s t && routeMatches ps ts
  | _, _ => false

/-- A registered route: HTTP method and path pattern. -/
structure Route where
  method : String
  pattern : List Seg
deriving Repr

/-- Every route of server.js, in registration order (lines 10, 46, 125,
168, 206, 255, 322, 388, 412, 432, 448, 462, 475, 491). -/
def routes : List Route :=
  [ ⟨"GET", [.lit "health"]⟩
  , ⟨"POST", [.lit "mood-log"]⟩
  , ⟨"GET", [.lit "mood-log", .pvar "std_id"]⟩
  , ⟨"GET", [.lit "habits"]⟩
  , ⟨"GET", [.lit "habit-log", .pvar "std_id"]⟩
  , ⟨"POST", [.lit "habit-log"]⟩
  , ⟨"POST", [.lit "appointments"]⟩
  , ⟨"GET", [.lit "appointments", .pvar "std_id"]⟩
  , ⟨"GET", [.lit "professional", .lit "today"]⟩
  , ⟨"GET", [.lit "admin", .lit "stats"]⟩
  , ⟨"GET", [.lit "notifications", .pvar "std_id"]⟩
  , ⟨"PUT", [.lit "notifications", .lit "read", .pvar "n_id"]⟩
  , ⟨"PUT", [.lit "appointments", .lit "status", .pvar "id"]⟩
  , ⟨"PUT", [.lit "appointments", .lit "status", .pvar "appoint_id"]⟩ ]

/-- Index of the route that handles a request: the first registered route
whose method and pattern match. -/
def dispatch (method : String) (path : List String) : Option Nat :=
  routes.findIdx? (fun r => r.method == method && routeMatches r.pattern path)

/-! ## Helper lemmas -/

/-- The row inserted by `setCompletedForDate` for one habit id. -/
def mkHabitRow (std : Nat) (date : String) (h : Nat) : HabitLogRow :=
  { std_id := std, habit_id := h, log_date := date, completed := 1 }

theorem mkHabitRow_injective (std : Nat) (date : String) :
    Function.Injective (mkHabitRow std date) := by
  intro a b h
  exact congrArg HabitLogRow.habit_id h

/-- On truthy inputs the validation passes and `setCompletedForDate`
replaces the rows for `(std, date)` by one row per submitted id. -/
theorem setCompletedForDate_valid (db : DB) (std : Nat) (date : String) (ids : List Nat)
    (hs : std ≠ 0) (hd : date ≠ "") :
    setCompletedForDate db ⟨some std, some ids, some date⟩ =
      ({ db with habit_Log :=
          db.habit_Log.filter (fun r => !(r.std_id == std && r.log_date == date))
            ++ ids.map (mkHabitRow std date) },
        ⟨200, "Habit log saved"⟩) := by
  unfold setCompletedForDate mkHabitRow
  simp [truthyNum, truthyStr, hs, hd]

/-- After a valid `setCompletedForDate`, the rows for `(std, date)` are
exactly one row per element of `ids`, in order. -/
theorem habitRowsFor_after_set (db : DB) (std : Nat) (date : String) (ids : List Nat)
    (hs : std ≠ 0) (hd : date ≠ "") :
    habitRowsFor (setCompletedForDate db ⟨some std, some ids, some date⟩).1 std date =
      ids.map (mkHabitRow std date) := by
  rw [setCompletedForDate_valid db std date ids hs hd]
  unfold habitRowsFor
  rw [List.filter_append, List.filter_filter]
  have h1 : db.habit_Log.filter
      (fun r => (r.std_id == std && r.log_date == date) && !(r.std_id == std && r.log_date == date)) = [] := by
    simp
  have h2 : (ids.map (mkHabitRow std date)).filter
      (fun r => r.std_id == std && r.log_date == date) = ids.map (mkHabitRow std date) := by
    apply List.filter_eq_self.mpr
    intro r hr
    rcases List.mem_map.mp hr with ⟨h, _, rfl⟩
    simp [mkHabitRow]
  rw [h1, h2, List.nil_append]

/-- The function `resolveLogDate` keeps a non-empty explicit date. -/
theorem resolveLogDate_some (date today : String) (hd : date ≠ "") :
    resolveLogDate (some date) today = date := by
  simp [resolveLogDate, hd]

/-! ## Claims -/

/-- Claim C1, as stated, is false: the claim quantifies over every
studentId and date, but the handler rejects falsy values with HTTP 400
and leaves the store untouched.  Concretely, with studentId 0 (falsy in
JavaScript: `!std_id`), date 2026-01-06 and habitIds [1], the set
returned by `getCompletedForDate` after the call is empty, not {1}. -/
theorem roundtrip_counterexample :
    ¬ (((getCompletedForDate (setCompletedForDate db0 ⟨some 0, some [1], some "2026-01-06"⟩).1
        0 (some "2026-01-06") "2026-01-06").map Prod.fst).toFinset
      = ([1] : List Nat).toFinset) := by
  decide

/-- Claim C1 (amended): for every nonzero studentId, non-empty date and
array habitIds, calling `setCompletedForDate` and then
`getCompletedForDate` with the same date returns exactly the set of ids
in habitIds (set equality, order irrelevant).  The nonzero/non-empty
restrictions are forced by the JavaScript truthiness validation
(`!std_id || ... || !log_date` → 400). -/
theorem setThenGet_roundtrip (db : DB) (std : Nat) (date today : String) (ids : List Nat)
    (hs : std ≠ 0) (hd : date ≠ "") :
    ((getCompletedForDate (setCompletedForDate db ⟨some std, some ids, some date⟩).1
        std (some date) today).map Prod.fst).toFinset = ids.toFinset := by
  unfold getCompletedForDate
  rw [resolveLogDate_some date today hd, habitRowsFor_after_set db std date ids hs hd]
  simp [Function.comp_def, mkHabitRow]

theorem setThenGet_roundtrip_witness :
    (101 ≠ 0 ∧ "2026-01-06" ≠ "") ∧
    ((getCompletedForDate (setCompletedForDate db0 ⟨some 101, some [2, 5], some "2026-01-06"⟩).1
        101 (some "2026-01-06") "2026-01-07").map Prod.fst).toFinset
      = ([2, 5] : List Nat).toFinset :=
  ⟨⟨by decide, by decide⟩,
    setThenGet_roundtrip db0 101 "2026-01-06" "2026-01-07" [2, 5] (by decide) (by decide)⟩

/-- Claim C2, as stated, is false: the handler inserts one row per
element of habit_ids without deduplication and the schema has no unique
constraint on (std_id, habit_id, log_date), so submitting [1, 1] leaves
two identical rows for the pair — the no-duplicates invariant fails. -/
theorem habitRows_dup_counterexample :
    ¬ (habitRowsFor (setCompletedForDate db0 ⟨some 101, some [1, 1], some "2026-01-06"⟩).1
        101 "2026-01-06").Nodup := by
  decide

/-- Claim C2 (amended): after any valid `setCompletedForDate` (truthy
studentId and date), the `Habit_Log` rows for that (student, date) are
exactly one row per element of the submitted array, in order — so there
are no stale rows, the set of habit ids present equals the set submitted,
and the rows are duplicate-free whenever the submitted array itself has
no repeated ids.  (The unrestricted claim fails because a repeated id in
the array yields a duplicated row.) -/
theorem habitRows_after_set_spec (db : DB) (std : Nat) (date : String) (ids : List Nat)
    (hs : std ≠ 0) (hd : date ≠ "") :
    habitRowsFor (setCompletedForDate db ⟨some std, some ids, some date⟩).1 std date
        = ids.map (mkHabitRow std date) ∧
    ((habitRowsFor (setCompletedForDate db ⟨some std, some ids, some date⟩).1 std date).map
        HabitLogRow.habit_id).toFinset = ids.toFinset ∧
    (ids.Nodup →
      (habitRowsFor (setCompletedForDate db ⟨some std, some ids, some date⟩).1 std date).Nodup) := by
  have hrows := habitRowsFor_after_set db std date ids hs hd
  refine ⟨hrows, ?_, ?_⟩
  · rw [hrows]
    simp [Function.comp_def, mkHabitRow]
  · intro hnd
    rw [hrows]
    exact hnd.map (mkHabitRow_injective std date)

theorem habitRows_after_set_spec_witness :
    (101 ≠ 0 ∧ "2026-01-06" ≠ "") ∧
    (habitRowsFor (setCompletedForDate db0 ⟨some 101, some [1, 3], some "2026-01-06"⟩).1
        101 "2026-01-06" = [1, 3].map (mkHabitRow 101 "2026-01-06") ∧
    ((habitRowsFor (setCompletedForDate db0 ⟨some 101, some [1, 3], some "2026-01-06"⟩).1
        101 "2026-01-06").map HabitLogRow.habit_id).toFinset = ([1, 3] : List Nat).toFinset ∧
    (([1, 3] : List Nat).Nodup →
      (habitRowsFor (setCompletedForDate db0 ⟨some 101, some [1, 3], some "2026-01-06"⟩).1
        101 "2026-01-06").Nodup)) :=
  ⟨⟨by decide, by decide⟩,
    habitRows_after_set_spec db0 101 "2026-01-06" [1, 3] (by decide) (by decide)⟩

/-- The store state after the first call of the C9 example:
`setCompletedForDate(101, 2026-01-06, [1, 3])` starting from the empty
store. -/
def dbAfterFirstSet : DB :=
  (setCompletedForDate db0 ⟨some 101, some [1, 3], some "2026-01-06"⟩).1

/-- Claim C9: calling `setCompletedForDate` with an empty array succeeds
(the response is 200 `Habit log saved`, not a ValidationError) and clears
all rows for that (student, date): `getCompletedForDate` then returns the
empty set.  Stated for every truthy (nonzero student, non-empty date)
input and every prior store state, which covers the concrete
101 / 2026-01-06 example — see the witness. -/
theorem setCompleted_empty_clears (db : DB) (std : Nat) (date today : String)
    (hs : std ≠ 0) (hd : date ≠ "") :
    (setCompletedForDate db ⟨some std, some [], some date⟩).2 = ⟨200, "Habit log saved"⟩ ∧
    getCompletedForDate (setCompletedForDate db ⟨some std, some [], some date⟩).1
      std (some date) today = [] := by
  constructor
  · rw [setCompletedForDate_valid db std date [] hs hd]
  · unfold getCompletedForDate
    rw [resolveLogDate_some date today hd, habitRowsFor_after_set db std date [] hs hd]
    rfl

theorem setCompleted_empty_clears_witness :
    (101 ≠ 0 ∧ "2026-01-06" ≠ "") ∧
    ((setCompletedForDate dbAfterFirstSet ⟨some 101, some [], some "2026-01-06"⟩).2
        = ⟨200, "Habit log saved"⟩ ∧
      getCompletedForDate
        (setCompletedForDate dbAfterFirstSet ⟨some 101, some [], some "2026-01-06"⟩).1
        101 (some "2026-01-06") "2026-01-06" = []) :=
  ⟨⟨by decide, by decide⟩,
    setCompleted_empty_clears dbAfterFirstSet 101 "2026-01-06" "2026-01-06"
      (by decide) (by decide)⟩

/-- Claim C3: for every appointment id and every status value outside
{Approved, Cancelled, Completed} — in particular Pending — the dispatched
status-update handler fails with 400 `Invalid status` (the ValidationError
of the spec) and leaves every appointment row unchanged: the `UPDATE`
never runs, so the result holds whatever the store would have done. -/
theorem updateStatus_invalid_rejected (storeFails : Bool) (storeMsg : String) (db : DB)
    (id : Nat) (status : String) (h : status ∉ allowedStatuses) :
    updateStatusId storeFails storeMsg db id status = (db, some ⟨400, "Invalid status"⟩) := by
  unfold updateStatusId
  rw [if_pos h]

theorem updateStatus_invalid_rejected_witness :
    "Pending" ∉ allowedStatuses ∧
    updateStatusId false "boom" db0 7 "Pending" = (db0, some ⟨400, "Invalid status"⟩) :=
  ⟨by decide, updateStatus_invalid_rejected false "boom" db0 7 "Pending" (by decide)⟩

/-- Claim C4: whenever the five required fields of `POST /appointments`
are all present (they pass the required-field check of the handler),
exactly one new `Appointment` row is appended, with status `Pending`, and
exactly one new `Notification` row is appended for that student, and the
response is 201 `Appointment created`. -/
theorem createAppointment_success (db : DB) (b : AppointmentBody)
    (h : apptFieldsPresent b = true) :
    (createAppointment db b).2 = ⟨201, "Appointment created"⟩ ∧
    (∃ a : Appointment,
      (createAppointment db b).1.appointments = db.appointments ++ [a] ∧
      a.status = "Pending" ∧ a.std_id = b.std_id.getD 0) ∧
    (∃ n : Notification,
      (createAppointment db b).1.notifications = db.notifications ++ [n] ∧
      n.std_id = b.std_id.getD 0) := by
  have hcond : (!(apptFieldsPresent b)) = false := by rw [h]; rfl
  unfold createAppointment
  rw [hcond]
  exact ⟨rfl, ⟨_, rfl, rfl, rfl⟩, ⟨_, rfl, rfl⟩⟩

/-- A fully populated booking request, used by the C4 witness. -/
def bookingW : AppointmentBody :=
  ⟨some 101, some "Counselor", some "Dr. Rahman", some "2026-01-10", some "14:00",
    some "Stress management"⟩

theorem createAppointment_success_witness :
    apptFieldsPresent bookingW = true ∧
    ((createAppointment db0 bookingW).2 = ⟨201, "Appointment created"⟩ ∧
    (∃ a : Appointment,
      (createAppointment db0 bookingW).1.appointments = db0.appointments ++ [a] ∧
      a.status = "Pending" ∧ a.std_id = bookingW.std_id.getD 0) ∧
    (∃ n : Notification,
      (createAppointment db0 bookingW).1.notifications = db0.notifications ++ [n] ∧
      n.std_id = bookingW.std_id.getD 0)) :=
  ⟨by decide, createAppointment_success db0 bookingW (by decide)⟩

/-- Claim C5: when a required field of `POST /appointments` is missing
(absent from the body) — for example `appointment_time` — the call fails
with 400 `Missing required appointment fields` (the ValidationError of
the spec) and the store is returned unchanged: zero rows are created in
both the Appointment and the Notification table. -/
theorem createAppointment_missing_field (db : DB) (b : AppointmentBody)
    (h : b.std_id = none ∨ b.appointment_type = none ∨ b.professional_name = none ∨
      b.appointment_date = none ∨ b.appointment_time = none) :
    createAppointment db b = (db, ⟨400, "Missing required appointment fields"⟩) := by
  have hcond : apptFieldsPresent b = false := by
    rcases h with h | h | h | h | h <;> simp [apptFieldsPresent, truthyNum, truthyStr, h]
  unfold createAppointment
  rw [hcond]
  rfl

/-- The C4 booking request with `appointment_time` removed, used by the
C5 witness. -/
def bookingNoTime : AppointmentBody :=
  ⟨some 101, some "Counselor", some "Dr. Rahman", some "2026-01-10", none,
    some "Stress management"⟩

theorem createAppointment_missing_field_witness :
    bookingNoTime.appointment_time = none ∧
    createAppointment db0 bookingNoTime = (db0, ⟨400, "Missing required appointment fields"⟩) :=
  ⟨rfl, createAppointment_missing_field db0 bookingNoTime
    (Or.inr (Or.inr (Or.inr (Or.inr rfl))))⟩

/-- Claim C6: for every id that matches no stored appointment and every
allowed status, the dispatched status-update handler reports success
(200 `Status updated`) while changing zero rows: the `UPDATE ... WHERE
appoint_id = ?` touches nothing and no existence check is made, so the
store is returned exactly as it was. -/
theorem updateStatus_nonexistent_noop (storeMsg : String) (db : DB) (id : Nat)
    (status : String) (hid : ∀ a ∈ db.appointments, a.appoint_id ≠ id)
    (hs : status ∈ allowedStatuses) :
    updateStatusId false storeMsg db id status = (db, some ⟨200, "Status updated"⟩) := by
  unfold updateStatusId
  rw [if_neg (not_not_intro hs)]
  unfold applyStatusUpdate
  have hmap : db.appointments.map (fun a =>
      if a.appoint_id == id then { a with status := status } else a) = db.appointments := by
    conv_rhs => rw [← List.map_id db.appointments]
    apply List.map_congr_left
    intro a ha
    have hne : (a.appoint_id == id) = false := by simp [hid a ha]
    simp [hne]
  rw [hmap]
  rfl

/-- A store holding one appointment with id 5, used by the C6 witness. -/
def dbOneAppt : DB :=
  { db0 with appointments :=
      [⟨5, 101, "Counselor", "Dr. Rahman", "2026-01-10", "14:00:00", "Pending", none, none⟩] }

theorem updateStatus_nonexistent_noop_witness :
    (∀ a ∈ dbOneAppt.appointments, a.appoint_id ≠ 7) ∧ "Approved" ∈ allowedStatuses ∧
    updateStatusId false "boom" dbOneAppt 7 "Approved"
      = (dbOneAppt, some ⟨200, "Status updated"⟩) :=
  ⟨by decide, by decide,
    updateStatus_nonexistent_noop "boom" dbOneAppt 7 "Approved" (by decide) (by decide)⟩

/-- Claim C7 concerns a code bug: the spec says every persistence failure
is answered with HTTP 500 carrying the raw store message, but the
dispatched handler of `PUT /appointments/status/:id` has no try/catch, so
when the `UPDATE` fails the rejected promise is unhandled and no response
is produced at all (`none`) — while the unreachable duplicate handler of
the same route would have answered 500 with the raw message. -/
theorem updateStatus_storeFailure_noResponse :
    (updateStatusId true "Connection lost" db0 1 "Approved").2 = none ∧
    (updateStatusAppointId true "Connection lost" db0 1 "Approved").2
      = some ⟨500, "Connection lost"⟩ := by
  constructor <;> rfl

/-- Claim C8: `listForStudent` returns exactly the appointments of the
requested student (a permutation of the `WHERE std_id = ?` rows), sorted
by date descending and, within equal dates, by time descending (the
`apAfter` key); and when the student has no appointments the result is
the empty sequence, not an error. -/
theorem listForStudent_spec (db : DB) (std : Nat) :
    (listForStudent db std).Sorted apAfter ∧
    (listForStudent db std).Perm (db.appointments.filter (fun a => a.std_id == std)) ∧
    (db.appointments.filter (fun a => a.std_id == std) = [] → listForStudent db std = []) := by
  refine ⟨List.sorted_insertionSort apAfter _, List.perm_insertionSort apAfter _, ?_⟩
  intro h
  unfold listForStudent
  rw [h]
  rfl

/-- A store with three appointments, two of them for student 101, used
by the C8 witness. -/
def dbThreeAppts : DB :=
  { db0 with appointments :=
      [⟨1, 101, "Counselor", "Dr. Rahman", "2026-01-10", "14:00:00", "Pending", none, none⟩,
       ⟨2, 202, "Doctor", "Dr. Khan", "2026-01-11", "09:00:00", "Pending", none, none⟩,
       ⟨3, 101, "Doctor", "Dr. Khan", "2026-01-12", "09:00:00", "Approved", none, none⟩] }

theorem listForStudent_spec_witness :
    (listForStudent dbThreeAppts 101).Sorted apAfter ∧
    (listForStudent dbThreeAppts 101).Perm
      (dbThreeAppts.appointments.filter (fun a => a.std_id == 101)) ∧
    (dbThreeAppts.appointments.filter (fun a => a.std_id == 101) = [] →
      listForStudent dbThreeAppts 101 = []) :=
  listForStudent_spec dbThreeAppts 101

/-- Claim C10: the route `PUT /appointments/status/...` is registered
twice; every request to it is dispatched to the first handler (index 12
in registration order — the second registration, index 13, is
unreachable), and when the store does not fail the two handlers compute
the same store update and responses with the same HTTP code on both the
validation path (400) and the successful-update path (200), so the
duplication does not change observable success/400 behaviour. -/
theorem duplicate_route_equivalence :
    (∀ s : String, dispatch "PUT" ["appointments", "status", s] = some 12) ∧
    (∀ (db : DB) (id : Nat) (status : String),
      (updateStatusId false "" db id status).1 = (updateStatusAppointId false "" db id status).1 ∧
      respCode (updateStatusId false "" db id status).2
        = respCode (updateStatusAppointId false "" db id status).2) := by
  constructor
  · intro s
    rfl
  · intro db id status
    unfold updateStatusId updateStatusAppointId
    by_cases h : status ∈ allowedStatuses
    · rw [if_neg (not_not_intro h), if_neg (not_not_intro h)]
      exact ⟨rfl, rfl⟩
    · rw [if_pos h, if_pos h]
      exact ⟨rfl, rfl⟩

end CampusWellness
